import Mathlib

/-!
Verification of the gift-tracker instance server (src/server/index.js,
the enhanced variant with combo tracking, health monitoring, debounced
broadcasting and batched backend sync).

The JavaScript module is single-threaded: event handlers and timer
callbacks run to completion.  We embed it as explicit state-passing
functions over a record of the module-level mutable variables, with
armed timers represented as data (a timer can only "fire" while it is
still recorded as armed, mirroring clearTimeout semantics).
-/

set_option autoImplicit false

/-! ## Association-list helpers (JS objects / Map with string or pair keys) -/

/-- Lookup in an insertion-ordered association list (JS object property access). -/
def lookupA {κ : Type} {β : Type} [DecidableEq κ] (k : κ) : List (κ × β) → Option β
  | [] => none
  | (k', v) :: rest => if k' = k then some v else lookupA k rest

/-- Set a key in an insertion-ordered association list: replace in place if the
key exists, append otherwise (JS object / Map assignment). -/
def setA {κ : Type} {β : Type} [DecidableEq κ] (k : κ) (v : β) : List (κ × β) → List (κ × β)
  | [] => [(k, v)]
  | (k', v') :: rest => if k' = k then (k, v) :: rest else (k', v') :: setA k v rest

/-- Delete a key from an association list (JS Map.delete). -/
def eraseA {κ : Type} {β : Type} [DecidableEq κ] (k : κ) (l : List (κ × β)) : List (κ × β) :=
  l.filter (fun p => p.1 ≠ k)

/-! ## Gift events and the combo tracker (index.js lines 501-670)

The tracker coalesces bursts of streak-capable gifts.  `processGiftCount`
invocations are recorded in the `calls` field: each list element is one
call `(data, delta)` handed to the aggregation code. -/

/-- A gift event as delivered by the feed connector. -/
structure GiftEvent where
  userId : String
  giftId : Nat
  giftName : String
  diamondCount : Nat
  giftType : Nat
  repeatEnd : Bool
  repeatCount : Nat
  deriving DecidableEq

/-- The key of the giftComboTracker map: the template string userId_giftId,
modelled as the pair it encodes. -/
abbrev ComboKey := String × Nat

/-- Key of an event, as computed at the top of the gift handler. -/
def GiftEvent.key (e : GiftEvent) : ComboKey := (e.userId, e.giftId)

/-- An entry of giftComboTracker: the last event snapshot, the armed timeout
handle, the lastUpdate timestamp and the counted flag. -/
structure ComboEntry where
  data : GiftEvent
  timerId : Nat
  lastUpdate : Nat
  counted : Bool
  deriving DecidableEq

/-- An armed setTimeout of trackGiftCombo.  The callback closure captured
the event (`data`) and its repeatCount at arming time. -/
structure ComboTimer where
  id : Nat
  key : ComboKey
  fireAt : Nat
  data : GiftEvent
  repeatCount : Nat
  deriving DecidableEq

/-- State of the combo-coalescing subsystem: the tracker map, the armed
timeouts, a fresh-handle counter, the log of processGiftCount calls and
the diagnostics timeout counter. -/
structure ComboState where
  combos : List (ComboKey × ComboEntry)
  armed : List ComboTimer
  nextTimerId : Nat
  calls : List (GiftEvent × Nat)
  totalComboTimeouts : Nat
  deriving DecidableEq

/-- The empty tracker (module initialisation). -/
def initialCombo : ComboState := ⟨[], [], 0, [], 0⟩

/-- The effective timeout duration: cfg.comboTimeout with a 5000 ms fallback
when the configured value is falsy. -/
def comboDur (comboTimeout : Nat) : Nat :=
  if comboTimeout = 0 then 5000 else comboTimeout

/-- trackGiftCombo (index.js 504-542): clear the timeout of an existing entry
for the key, then store the latest event and arm a fresh timeout. -/
def trackGiftCombo (comboTimeout : Nat) (now : Nat) (userId : String) (giftId : Nat)
    (data : GiftEvent) (s : ComboState) : ComboState :=
  let key : ComboKey := (userId, giftId)
  let s :=
    match lookupA key s.combos with
    | some existing => { s with armed := s.armed.filter (fun t => t.id ≠ existing.timerId) }
    | none => s
  let timeoutDuration := comboDur comboTimeout
  let id := s.nextTimerId
  { s with
    armed := s.armed ++ [⟨id, key, now + timeoutDuration, data, data.repeatCount⟩]
    combos := setA key ⟨data, id, now, false⟩ s.combos
    nextTimerId := id + 1 }

/-- The timeout callback of trackGiftCombo (index.js 521-534), runnable only
while the timer is still armed and due; a fired timer is one-shot.  If the
tracker entry is present and not yet counted it is marked counted, the
captured repeatCount is processed and the entry deleted; otherwise the fire
is a no-op. -/
def fireComboTimer (now : Nat) (id : Nat) (s : ComboState) : ComboState :=
  match s.armed.find? (fun t => decide (t.id = id)) with
  | none => s
  | some t =>
    if t.fireAt ≤ now then
      let s := { s with armed := s.armed.filter (fun u => u.id ≠ id) }
      match lookupA t.key s.combos with
      | some tracker =>
        if tracker.counted = false then
          { s with
            totalComboTimeouts := s.totalComboTimeouts + 1
            calls := s.calls ++ [(t.data, t.repeatCount)]
            combos := eraseA t.key s.combos }
        else s
      | none => s
    else s

/-- The gift-counting part of the gift handler (index.js 620-669): single-path
logic for streak-capable gifts, with the direct path when no tracker entry
exists, and immediate counting for non-streak gifts (repeatCount
defaulting to 1 when falsy). -/
def comboGiftStep (comboTimeout : Nat) (now : Nat) (data : GiftEvent) (s : ComboState) :
    ComboState :=
  let userId := data.userId
  let key : ComboKey := (userId, data.giftId)
  if data.giftType = 1 then
    if data.repeatEnd then
      match lookupA key s.combos with
      | some tracker =>
        if tracker.counted = false then
          { s with
            armed := s.armed.filter (fun t => t.id ≠ tracker.timerId)
            calls := s.calls ++ [(data, data.repeatCount)]
            combos := eraseA key s.combos }
        else
          { s with
            armed := s.armed.filter (fun t => t.id ≠ tracker.timerId)
            combos := eraseA key s.combos }
      | none =>
        { s with calls := s.calls ++ [(data, data.repeatCount)] }
    else
      trackGiftCombo comboTimeout now userId data.giftId data s
  else
    { s with calls := s.calls ++ [(data, if data.repeatCount = 0 then 1 else data.repeatCount)] }

/-- A scheduling step of the event loop touching the combo subsystem:
either a gift event arrives or an armed combo timeout fires. -/
inductive ComboStep where
  | gift (now : Nat) (e : GiftEvent)
  | fire (now : Nat) (id : Nat)
  deriving DecidableEq

/-- Run a list of scheduling steps. -/
def runCombo (comboTimeout : Nat) (s : ComboState) : List ComboStep → ComboState
  | [] => s
  | ComboStep.gift now e :: rest => runCombo comboTimeout (comboGiftStep comboTimeout now e s) rest
  | ComboStep.fire now id :: rest => runCombo comboTimeout (fireComboTimer now id s) rest

/-- Number of processGiftCount calls recorded for a key. -/
def callsFor (k : ComboKey) (s : ComboState) : Nat :=
  (s.calls.filter (fun c => c.1.key = k)).length

/-- Gift-arrival steps for a list of timed events. -/
def giftSteps (es : List (Nat × GiftEvent)) : List ComboStep :=
  es.map (fun p => ComboStep.gift p.1 p.2)

/-- Last element of a list with a default (used for the last-seen event of a burst). -/
def lastD {α : Type} : List α → α → α
  | [], d => d
  | a :: rest, _ => lastD rest a

/-- The tracker state while one burst for key k is pending: a single
uncounted entry holding the last-seen event e, whose timeout (handle i)
is the only armed timer; no call has been made. -/
def pendingCombo (k : ComboKey) (e : GiftEvent) (i : Nat) (t : Nat) (dur : Nat) : ComboState :=
  ⟨[(k, ⟨e, i, t, false⟩)], [⟨i, k, t + dur, e, e.repeatCount⟩], i + 1, [], 0⟩

theorem runCombo_append (T : Nat) (s : ComboState) (a b : List ComboStep) :
    runCombo T s (a ++ b) = runCombo T (runCombo T s a) b := by
  induction a generalizing s with
  | nil => rfl
  | cons x rest ih =>
    cases x <;> simp [runCombo, ih]

theorem comboGiftStep_first (T t : Nat) (e : GiftEvent)
    (h1 : e.giftType = 1) (h2 : e.repeatEnd = false) :
    comboGiftStep T t e initialCombo = pendingCombo e.key e 0 t (comboDur T) := by
  simp [comboGiftStep, h1, h2, trackGiftCombo, initialCombo, pendingCombo, lookupA, setA,
    GiftEvent.key]

theorem comboGiftStep_next (T t' : Nat) (k : ComboKey) (e e' : GiftEvent) (i t dur : Nat)
    (h1 : e'.giftType = 1) (h2 : e'.repeatEnd = false) (h3 : e'.key = k)
    (hdur : dur = comboDur T) :
    comboGiftStep T t' e' (pendingCombo k e i t dur) = pendingCombo k e' (i + 1) t' dur := by
  have hu : e'.userId = k.1 := by rw [← h3]; rfl
  have hg : e'.giftId = k.2 := by rw [← h3]; rfl
  simp [comboGiftStep, h1, h2, hu, hg, trackGiftCombo, pendingCombo, lookupA, setA, hdur]

theorem runCombo_nonterms (T : Nat) (k : ComboKey) (es : List (Nat × GiftEvent))
    (hes : ∀ p ∈ es, (p.2).giftType = 1 ∧ (p.2).repeatEnd = false ∧ (p.2).key = k) :
    ∀ (e : GiftEvent) (i t : Nat),
      runCombo T (pendingCombo k e i t (comboDur T)) (giftSteps es) =
        pendingCombo k (lastD es (t, e)).2 (i + es.length) (lastD es (t, e)).1 (comboDur T) := by
  induction es with
  | nil => intro e i t; simp [giftSteps, runCombo, lastD]
  | cons p rest ih =>
    intro e i t
    have hp := hes p (by simp)
    have hrest : ∀ q ∈ rest, (q.2).giftType = 1 ∧ (q.2).repeatEnd = false ∧ (q.2).key = k := by
      intro q hq; exact hes q (by simp [hq])
    simp only [giftSteps, List.map_cons, runCombo]
    rw [comboGiftStep_next T p.1 k e p.2 i t (comboDur T) hp.1 hp.2.1 hp.2.2 rfl]
    have := ih hrest p.2 (i + 1) p.1
    simp only [giftSteps] at this
    rw [this]
    simp [lastD, Nat.add_assoc, Nat.add_comm 1 rest.length]

theorem comboGiftStep_terminal (T tT : Nat) (k : ComboKey) (e eT : GiftEvent) (i t dur : Nat)
    (h1 : eT.giftType = 1) (h2 : eT.repeatEnd = true) (h3 : eT.key = k) :
    comboGiftStep T tT eT (pendingCombo k e i t dur) =
      ⟨[], [], i + 1, [(eT, eT.repeatCount)], 0⟩ := by
  have hu : eT.userId = k.1 := by rw [← h3]; rfl
  have hg : eT.giftId = k.2 := by rw [← h3]; rfl
  simp [comboGiftStep, h1, h2, hu, hg, pendingCombo, lookupA, eraseA]

theorem comboGiftStep_terminal_direct (T tT : Nat) (eT : GiftEvent)
    (h1 : eT.giftType = 1) (h2 : eT.repeatEnd = true) :
    comboGiftStep T tT eT initialCombo = ⟨[], [], 0, [(eT, eT.repeatCount)], 0⟩ := by
  simp [comboGiftStep, h1, h2, initialCombo, lookupA]

theorem fireComboTimer_pending (k : ComboKey) (e : GiftEvent) (i t dur : Nat) :
    fireComboTimer (t + dur) i (pendingCombo k e i t dur) =
      ⟨[], [], i + 1, [(e, e.repeatCount)], 1⟩ := by
  simp [fireComboTimer, pendingCombo, lookupA, eraseA, List.find?]

theorem fireComboTimer_noArmed (now id : Nat) (s : ComboState) (h : s.armed = []) :
    fireComboTimer now id s = s := by
  simp [fireComboTimer, h, List.find?]

theorem callsFor_single (k : ComboKey) (e : GiftEvent) (n i m : Nat) (h : e.key = k) :
    callsFor k ⟨[], [], i, [(e, n)], m⟩ = 1 := by
  simp [callsFor, h]

/-- C1: for a streak-capable burst for one (sender, gift) key — any number of
non-terminal events followed by a terminal repeatEnd event, or followed by the
armed combo timeout firing — exactly one processGiftCount call is made for
that key, the ComboEntry is removed, and no armed timer survives, so the
other finalisation path can no longer run (never zero, never two). -/
theorem combo_burst_exactly_once
    (T : Nat) (K : ComboKey) (es : List (Nat × GiftEvent))
    (hes : ∀ p ∈ es, (p.2).giftType = 1 ∧ (p.2).repeatEnd = false ∧ (p.2).key = K)
    (eT : GiftEvent) (hT1 : eT.giftType = 1) (hT2 : eT.repeatEnd = true) (hT3 : eT.key = K)
    (tT : Nat) :
    (callsFor K (runCombo T initialCombo (giftSteps es ++ [ComboStep.gift tT eT])) = 1
      ∧ (runCombo T initialCombo (giftSteps es ++ [ComboStep.gift tT eT])).combos = []
      ∧ (runCombo T initialCombo (giftSteps es ++ [ComboStep.gift tT eT])).armed = [])
    ∧ (∀ now id,
        fireComboTimer now id (runCombo T initialCombo (giftSteps es ++ [ComboStep.gift tT eT]))
          = runCombo T initialCombo (giftSteps es ++ [ComboStep.gift tT eT]))
    ∧ (∀ t0 e0, e0.giftType = 1 → e0.repeatEnd = false → e0.key = K →
        callsFor K (fireComboTimer ((lastD es (t0, e0)).1 + comboDur T) es.length
          (runCombo T initialCombo (giftSteps ((t0, e0) :: es)))) = 1
        ∧ (fireComboTimer ((lastD es (t0, e0)).1 + comboDur T) es.length
            (runCombo T initialCombo (giftSteps ((t0, e0) :: es)))).combos = []
        ∧ (fireComboTimer ((lastD es (t0, e0)).1 + comboDur T) es.length
            (runCombo T initialCombo (giftSteps ((t0, e0) :: es)))).armed = []) := by
  have hterm : ∃ n, runCombo T initialCombo (giftSteps es ++ [ComboStep.gift tT eT]) =
      ⟨[], [], n, [(eT, eT.repeatCount)], 0⟩ := by
    cases es with
    | nil =>
      refine ⟨0, ?_⟩
      simp only [giftSteps, List.map_nil, List.nil_append, runCombo]
      rw [comboGiftStep_terminal_direct T tT eT hT1 hT2]
    | cons p rest =>
      have hp := hes p (by simp)
      have hrest : ∀ q ∈ rest, (q.2).giftType = 1 ∧ (q.2).repeatEnd = false ∧ (q.2).key = K := by
        intro q hq; exact hes q (by simp [hq])
      refine ⟨rest.length + 1, ?_⟩
      rw [runCombo_append]
      simp only [giftSteps, List.map_cons, runCombo]
      rw [comboGiftStep_first T p.1 p.2 hp.1 hp.2.1, hp.2.2]
      have := runCombo_nonterms T K rest hrest p.2 0 p.1
      simp only [giftSteps, Nat.zero_add] at this
      rw [this]
      rw [comboGiftStep_terminal T tT K (lastD rest (p.1, p.2)).2 eT rest.length
        (lastD rest (p.1, p.2)).1 (comboDur T) hT1 hT2 hT3]
  obtain ⟨n, hterm⟩ := hterm
  refine ⟨?_, ?_, ?_⟩
  · rw [hterm]
    exact ⟨callsFor_single K eT eT.repeatCount n 0 hT3, rfl, rfl⟩
  · intro now id
    rw [hterm]
    exact fireComboTimer_noArmed now id _ rfl
  · intro t0 e0 h01 h02 h03
    have hfire : runCombo T initialCombo (giftSteps ((t0, e0) :: es)) =
        pendingCombo K (lastD es (t0, e0)).2 es.length (lastD es (t0, e0)).1 (comboDur T) := by
      simp only [giftSteps, List.map_cons, runCombo]
      rw [comboGiftStep_first T t0 e0 h01 h02, h03]
      have := runCombo_nonterms T K es hes e0 0 t0
      simp only [giftSteps, Nat.zero_add] at this
      rw [this]
    rw [hfire, fireComboTimer_pending]
    refine ⟨?_, rfl, rfl⟩
    have hkey : (lastD es (t0, e0)).2.key = K := by
      have : ∀ (l : List (Nat × GiftEvent)) (d : Nat × GiftEvent),
          (∀ p ∈ l, (p.2).key = K) → (d.2).key = K → (lastD l d).2.key = K := by
        intro l
        induction l with
        | nil => intro d _ hd; exact hd
        | cons a rest ih =>
          intro d hl hd
          exact ih a (fun p hp => hl p (by simp [hp])) (hl a (by simp))
      exact this es (t0, e0) (fun p hp => (hes p hp).2.2) h03
    exact callsFor_single K _ _ _ _ hkey

/-- A concrete non-terminal rose tick with repeatCount 2. -/
def roseTick : GiftEvent := ⟨"user1", 5655, "Rose", 1, 1, false, 2⟩

/-- A concrete terminal event for the same key with final repeatCount 3. -/
def roseEnd : GiftEvent := ⟨"user1", 5655, "Rose", 1, 1, true, 3⟩

/-- Witness for combo_burst_exactly_once at a concrete one-tick burst. -/
theorem combo_burst_exactly_once_witness :
    (∀ p ∈ [((0 : Nat), roseTick)],
      (p.2).giftType = 1 ∧ (p.2).repeatEnd = false ∧ (p.2).key = ("user1", 5655))
    ∧ roseEnd.giftType = 1 ∧ roseEnd.repeatEnd = true ∧ roseEnd.key = ("user1", 5655)
    ∧ ((callsFor ("user1", 5655)
          (runCombo 5000 initialCombo (giftSteps [(0, roseTick)] ++ [ComboStep.gift 40 roseEnd])) = 1
        ∧ (runCombo 5000 initialCombo (giftSteps [(0, roseTick)] ++ [ComboStep.gift 40 roseEnd])).combos = []
        ∧ (runCombo 5000 initialCombo (giftSteps [(0, roseTick)] ++ [ComboStep.gift 40 roseEnd])).armed = [])
      ∧ (∀ now id,
          fireComboTimer now id
            (runCombo 5000 initialCombo (giftSteps [(0, roseTick)] ++ [ComboStep.gift 40 roseEnd]))
            = runCombo 5000 initialCombo (giftSteps [(0, roseTick)] ++ [ComboStep.gift 40 roseEnd]))
      ∧ (∀ t0 e0, e0.giftType = 1 → e0.repeatEnd = false → e0.key = ("user1", 5655) →
          callsFor ("user1", 5655)
            (fireComboTimer ((lastD [(0, roseTick)] (t0, e0)).1 + comboDur 5000)
              (List.length [(0, roseTick)])
              (runCombo 5000 initialCombo (giftSteps ((t0, e0) :: [(0, roseTick)])))) = 1
          ∧ (fireComboTimer ((lastD [(0, roseTick)] (t0, e0)).1 + comboDur 5000)
              (List.length [(0, roseTick)])
              (runCombo 5000 initialCombo (giftSteps ((t0, e0) :: [(0, roseTick)])))).combos = []
          ∧ (fireComboTimer ((lastD [(0, roseTick)] (t0, e0)).1 + comboDur 5000)
              (List.length [(0, roseTick)])
              (runCombo 5000 initialCombo (giftSteps ((t0, e0) :: [(0, roseTick)])))).armed = [])) :=
  ⟨by decide, by decide, by decide, by decide,
    combo_burst_exactly_once 5000 ("user1", 5655) [(0, roseTick)] (by decide)
      roseEnd (by decide) (by decide) (by decide) 40⟩

/-- A single non-terminal streak-capable event with repeatCount 5 and no
terminal event ever. -/
def roseFive : GiftEvent := ⟨"user1", 5655, "Rose", 1, 1, false, 5⟩

/-- C5: with comboTimeout 5000 ms and one non-terminal event of repeatCount 5
at t = 0 followed by no terminal event, the armed timeout is due at t = 5000;
firing it applies a single delta of 5 (the last-seen repeatCount) via
processGiftCount and removes the combo entry for the key. -/
theorem combo_timeout_counts_last_seen :
    (comboGiftStep 5000 0 roseFive initialCombo).armed =
      [⟨0, ("user1", 5655), 5000, roseFive, 5⟩]
    ∧ fireComboTimer 5000 0 (comboGiftStep 5000 0 roseFive initialCombo) =
        ⟨[], [], 1, [(roseFive, 5)], 1⟩ := by
  decide

/-! ## Server module state (index.js module-level variables)

The remaining runtime state of the module: configuration, groups and
counters, connection status, totals, the error log, the health monitor,
the broadcast debouncer and the combo tracker.  External effects
(socket emissions) are recorded in the `updates` outbox; the feed
connector object is abstracted to the boolean `tiktokConn`
(tiktok not equal to null). -/

/-- liveStatus values (comment at index.js line 59). -/
inductive LiveStatus where
  | DISCONNECTED
  | CONNECTING
  | ONLINE
  | OFFLINE
  deriving DecidableEq

/-- An error-log entry (timestamp and details elided: the timestamp is the
wall-clock ISO string and details an arbitrary JSON value, neither of
which any claim depends on). -/
structure ErrorEntry where
  category : String
  message : String
  deriving DecidableEq

/-- Per-group counter. -/
structure Counter where
  count : Int
  diamonds : Int
  deriving DecidableEq

/-- A gift group as stored in the groups table. -/
structure GiftGroup where
  name : String
  giftIds : List Nat
  deriving DecidableEq

/-- A catalog entry. -/
structure CatalogEntry where
  id : Nat
  name : String
  diamondCost : Nat
  iconUrl : Option String
  deriving DecidableEq

/-- connectionHealth (index.js 405-414). -/
structure ConnectionHealth where
  isHealthy : Bool
  lastHealthCheck : Option Nat
  lastSuccessfulCheck : Option Nat
  consecutiveFailures : Nat
  totalChecks : Nat
  totalFailures : Nat
  uptime : Nat
  lastActivity : Option Nat
  deriving DecidableEq

/-- Backend-loaded configuration cfg. -/
structure Cfg where
  target : Nat
  comboTimeout : Nat
  deriving DecidableEq

/-- The outbound snapshot built by buildPayload (index.js 1016-1032). -/
structure Payload where
  counters : List (String × Counter)
  groups : List (String × GiftGroup)
  target : Nat
  liveStatus : LiveStatus
  liveViewers : Nat
  uniqueJoins : Nat
  totalGifts : Nat
  totalDiamonds : Nat
  errorCount : Nat
  lastError : Option ErrorEntry
  deriving DecidableEq

/-- All module-level mutable state of index.js relevant to the claims. -/
structure ServerState where
  cfg : Cfg
  groups : List (String × GiftGroup)
  counters : List (String × Counter)
  liveStatus : LiveStatus
  viewers : Nat
  uniques : List String
  totalGifts : Nat
  totalDiamonds : Nat
  giftCatalog : List CatalogEntry
  isManualDisconnect : Bool
  errorLog : List ErrorEntry
  combo : ComboState
  healthTimer : Bool
  health : ConnectionHealth
  tiktokConn : Bool
  pendingBroadcast : Bool
  broadcastTimerAt : Option Nat
  updates : List Payload
  startTime : Nat
  deriving DecidableEq

def MAX_ERROR_LOG_SIZE : Nat := 50
def BROADCAST_DEBOUNCE_MS : Nat := 100
def SYNC_BATCH_DELAY : Nat := 2000
def MAX_SYNC_QUEUE_SIZE : Nat := 10
def HEALTH_CHECK_INTERVAL : Nat := 30000
def HEALTH_CHECK_TIMEOUT : Nat := 10000

/-- logError (index.js 73-91): unshift the entry, pop the oldest beyond
capacity 50. -/
def logError (category message : String) (s : ServerState) : ServerState :=
  let l := (⟨category, message⟩ : ErrorEntry) :: s.errorLog
  { s with errorLog := if MAX_ERROR_LOG_SIZE < l.length then l.dropLast else l }

/-- buildPayload (index.js 1016-1032). -/
def buildPayload (s : ServerState) : Payload :=
  ⟨s.counters, s.groups, s.cfg.target, s.liveStatus, s.viewers, s.uniques.length,
    s.totalGifts, s.totalDiamonds, s.errorLog.length, s.errorLog.head?⟩

/-- broadcast (index.js 1033-1038): emit the current payload to subscribers. -/
def broadcast (s : ServerState) : ServerState :=
  { s with updates := buildPayload s :: s.updates }

/-- debouncedBroadcast (index.js 158-172): mark dirty, clear any armed
debounce timer, arm a new one for 100 ms from now. -/
def debouncedBroadcast (now : Nat) (s : ServerState) : ServerState :=
  { s with pendingBroadcast := true, broadcastTimerAt := some (now + BROADCAST_DEBOUNCE_MS) }

/-- The debounce timer callback (index.js 165-171), runnable only while the
timer is armed and due: broadcast if still dirty, clear dirty, null the
timer handle. -/
def fireBroadcastTimer (now : Nat) (s : ServerState) : ServerState :=
  match s.broadcastTimerAt with
  | none => s
  | some t =>
    if t ≤ now then
      let s := if s.pendingBroadcast then { broadcast s with pendingBroadcast := false } else s
      { s with broadcastTimerAt := none }
    else s

/-- initCounters (index.js 174-183): rebuild the counters table over the
current group ids, optionally preserving existing values. -/
def initCounters (preserveValues : Bool) (s : ServerState) : ServerState :=
  { s with
    counters := s.groups.map (fun p =>
      (p.1, if preserveValues then (lookupA p.1 s.counters).getD ⟨0, 0⟩ else ⟨0, 0⟩)) }

/-- recordActivity (index.js 489-493). -/
def recordActivity (now : Nat) (s : ServerState) : ServerState :=
  { s with health :=
      { s.health with lastActivity := some now, consecutiveFailures := 0, isHealthy := true } }

/-- startHealthMonitoring (index.js 416-479): (re)arm the 30 s interval. -/
def startHealthMonitoring (s : ServerState) : ServerState :=
  { s with healthTimer := true }

/-- stopHealthMonitoring (index.js 481-487). -/
def stopHealthMonitoring (s : ServerState) : ServerState :=
  { s with healthTimer := false }

/-- Clearing every pending combo timeout and the tracker map
(the forEach clearTimeout loop followed by giftComboTracker.clear()). -/
def clearComboTimers (s : ServerState) : ServerState :=
  { s with combo := { s.combo with combos := [], armed := [] } }

/-- disconnectTikTok (index.js 815-841): set the manual flag, tear down the
connector (logging a DISCONNECT error if teardown throws), clear all combo
timeouts, set DISCONNECTED and broadcast.  The health-monitor interval is
not touched. -/
def disconnectTikTok (discErr : Option String) (s : ServerState) : ServerState :=
  let s := { s with isManualDisconnect := true }
  let s :=
    if s.tiktokConn then
      let s := match discErr with
        | some _ => logError "DISCONNECT" "Error during manual disconnect" s
        | none => s
      { s with tiktokConn := false }
    else s
  let s := clearComboTimers s
  broadcast { s with liveStatus := LiveStatus.DISCONNECTED }

/-- The disconnected feed-event handler (index.js 683-702). -/
def onDisconnected (s : ServerState) : ServerState :=
  let s := logError "CONNECTION" "Disconnected from TikTok Live - Manual reconnection required" s
  let s := stopHealthMonitoring s
  let s := clearComboTimers s
  broadcast { s with liveStatus := LiveStatus.OFFLINE }

/-- The error feed-event handler (index.js 704-720): log and go OFFLINE;
nothing is scheduled. -/
def onError (s : ServerState) : ServerState :=
  let s := logError "CONNECTION" "Connection error - Manual reconnection required" s
  broadcast { s with liveStatus := LiveStatus.OFFLINE }

/-- The streamEnd feed-event handler (index.js 722-749). -/
def onStreamEnd (s : ServerState) : ServerState :=
  let s := logError "STREAM" "Stream ended by host" s
  let s := stopHealthMonitoring s
  let s := clearComboTimers s
  let s := { s with tiktokConn := false }
  broadcast { s with liveStatus := LiveStatus.OFFLINE }

/-- The connected feed-event handler (index.js 674-681). -/
def onConnected (now : Nat) (s : ServerState) : ServerState :=
  let s := { s with liveStatus := LiveStatus.ONLINE }
  let s := recordActivity now s
  broadcast (startHealthMonitoring s)

/-- connectTikTok (index.js 590-813).  The guard returns immediately when
already CONNECTING or ONLINE.  Otherwise the manual flag is cleared and a
connection is attempted; `connectOk` abstracts whether tiktok.connect()
resolves, `fetched` the catalogue fetched on success.  The boolean result
records whether a new connector was created. -/
def connectTikTok (now : Nat) (connectOk : Bool) (fetched : List CatalogEntry)
    (s : ServerState) : ServerState × Bool :=
  if s.liveStatus = LiveStatus.CONNECTING ∨ s.liveStatus = LiveStatus.ONLINE then (s, false)
  else
    let s := { s with isManualDisconnect := false, liveStatus := LiveStatus.CONNECTING }
    let s := broadcast s
    let s := { s with tiktokConn := true }
    if connectOk then
      let s := onConnected now s
      let s := { s with liveStatus := LiveStatus.ONLINE, giftCatalog := fetched }
      (broadcast s, true)
    else
      let s := logError "CONNECTION" "Initial connection failed - Manual retry required" s
      (broadcast { s with liveStatus := LiveStatus.OFFLINE }, true)

/-- The uptime update at the end of a health tick (index.js 463-466). -/
def updateUptime (now : Nat) (s : ServerState) : ServerState :=
  if s.health.lastSuccessfulCheck ≠ none then
    { s with health := { s.health with uptime := now - s.startTime } }
  else s

/-- One tick of the health-check interval (index.js 423-478), runnable only
while the interval is armed.  Skips unless ONLINE; a stale check (non-null,
non-zero time since last activity exceeding twice HEALTH_CHECK_TIMEOUT)
increments consecutiveFailures, and at 3 the HEALTH error is logged and a
forced disconnect performed; otherwise failures reset to 0. -/
def healthCheck (now : Nat) (discErr : Option String) (s : ServerState) : ServerState :=
  if s.healthTimer = false then s
  else if s.liveStatus ≠ LiveStatus.ONLINE then s
  else
    let h := { s.health with totalChecks := s.health.totalChecks + 1, lastHealthCheck := some now }
    let s := { s with health := h }
    match h.lastActivity with
    | none =>
      let s := { s with health :=
        { h with consecutiveFailures := 0, isHealthy := true, lastSuccessfulCheck := some now } }
      updateUptime now s
    | some a =>
      let timeSinceActivity := now - a
      if timeSinceActivity ≠ 0 ∧ HEALTH_CHECK_TIMEOUT * 2 < timeSinceActivity then
        let h := { h with
          consecutiveFailures := h.consecutiveFailures + 1
          totalFailures := h.totalFailures + 1
          isHealthy := false }
        let s := { s with health := h }
        let s :=
          if 3 ≤ h.consecutiveFailures then
            disconnectTikTok discErr
              (logError "HEALTH" "Connection health check failed - Manual reconnection required" s)
          else s
        updateUptime now s
      else
        let s := { s with health :=
          { h with consecutiveFailures := 0, isHealthy := true, lastSuccessfulCheck := some now } }
        updateUptime now s

/-- The reset endpoint handler (index.js 947-954): zero all counters, empty
the unique-sender set, zero viewers and totals, broadcast. -/
def resetApi (s : ServerState) : ServerState :=
  let s := initCounters false s
  broadcast { s with uniques := [], viewers := 0, totalGifts := 0, totalDiamonds := 0 }

/-- The counter endpoint handler (index.js 920-930).  Result component:
none for the ok response, or the 404 error body. -/
def setCounterApi (now : Nat) (groupId : String) (diamonds count : Option Int)
    (s : ServerState) : ServerState × Option (Nat × String) :=
  match lookupA groupId s.groups with
  | none => (s, some (404, "group not found"))
  | some _ =>
    let c0 := (lookupA groupId s.counters).getD ⟨0, 0⟩
    let c1 := match diamonds with
      | some d => { c0 with diamonds := d }
      | none => c0
    let c2 := match count with
      | some n => { c1 with count := n }
      | none => c1
    (debouncedBroadcast now { s with counters := setA groupId c2 s.counters }, none)

/-- A concrete healthy ConnectionHealth with recent activity at t = 1000. -/
def sampleHealth : ConnectionHealth := ⟨true, none, none, 0, 0, 0, 0, some 1000⟩

/-- A concrete ONLINE server state with one group, an armed health interval
and no pending debounce. -/
def sampleOnline : ServerState :=
  ⟨⟨10000, 5000⟩, [("g1", ⟨"Roses", [5655]⟩)], [("g1", ⟨0, 0⟩)], LiveStatus.ONLINE,
    0, [], 0, 0, [], false, [], initialCombo, true, sampleHealth, true, false, none, [], 0⟩

/-- The head of the error log right after logError is the new entry. -/
theorem logError_head (category message : String) (s : ServerState) :
    (logError category message s).errorLog.head? = some ⟨category, message⟩ := by
  unfold logError
  cases h : s.errorLog with
  | nil => simp [MAX_ERROR_LOG_SIZE]
  | cons e rest =>
    simp only []
    split <;> simp [List.dropLast]

/-- logError touches only the error log. -/
theorem logError_frame (category message : String) (s : ServerState) :
    (logError category message s).liveStatus = s.liveStatus
    ∧ (logError category message s).healthTimer = s.healthTimer
    ∧ (logError category message s).combo = s.combo
    ∧ (logError category message s).broadcastTimerAt = s.broadcastTimerAt
    ∧ (logError category message s).health = s.health
    ∧ (logError category message s).isManualDisconnect = s.isManualDisconnect := by
  simp [logError]

/-- C8: the reset endpoint zeroes every per-group counter and every global
total (totals, unique senders, viewer count) while leaving the group table,
the gift catalog and the configuration (target, comboTimeout) unchanged. -/
theorem reset_zeroes_counters_keeps_groups (s : ServerState) :
    (resetApi s).counters = s.groups.map (fun p => (p.1, (⟨0, 0⟩ : Counter)))
    ∧ (resetApi s).totalGifts = 0
    ∧ (resetApi s).totalDiamonds = 0
    ∧ (resetApi s).uniques = []
    ∧ (resetApi s).viewers = 0
    ∧ (resetApi s).groups = s.groups
    ∧ (resetApi s).giftCatalog = s.giftCatalog
    ∧ (resetApi s).cfg = s.cfg := by
  simp [resetApi, initCounters, broadcast]

/-- C9: calling connectTikTok while already CONNECTING or ONLINE returns
immediately: no connector is created and the entire state (counters, totals,
groups, catalog, manual-disconnect flag, everything) is unchanged. -/
theorem connect_noop_when_active (now : Nat) (connectOk : Bool)
    (fetched : List CatalogEntry) (s : ServerState)
    (h : s.liveStatus = LiveStatus.CONNECTING ∨ s.liveStatus = LiveStatus.ONLINE) :
    connectTikTok now connectOk fetched s = (s, false) := by
  simp [connectTikTok, h]

/-- Witness for connect_noop_when_active at the concrete ONLINE state. -/
theorem connect_noop_when_active_witness :
    (sampleOnline.liveStatus = LiveStatus.CONNECTING
      ∨ sampleOnline.liveStatus = LiveStatus.ONLINE)
    ∧ connectTikTok 0 true [] sampleOnline = (sampleOnline, false) :=
  ⟨Or.inr rfl, connect_noop_when_active 0 true [] sampleOnline (Or.inr rfl)⟩

/-- C2 counterexample: the feed error handler of the code schedules no
reconnect at all.  From the concrete ONLINE state, after the error handler
the status is OFFLINE (the status enum has no reconnecting value), no timer
of any kind has been armed (health interval, combo timers and debounce
timer are exactly as before, and the state carries no reconnect timer), and
the logged entry says manual reconnection is required — contradicting the
claimed automatic exponential-backoff retry with a pending Reconnecting
state. -/
theorem no_auto_reconnect_counterexample :
    sampleOnline.liveStatus = LiveStatus.ONLINE
    ∧ (onError sampleOnline).liveStatus = LiveStatus.OFFLINE
    ∧ (onError sampleOnline).healthTimer = sampleOnline.healthTimer
    ∧ (onError sampleOnline).combo.armed = sampleOnline.combo.armed
    ∧ (onError sampleOnline).broadcastTimerAt = sampleOnline.broadcastTimerAt
    ∧ (onError sampleOnline).errorLog.head? =
        some ⟨"CONNECTION", "Connection error - Manual reconnection required"⟩ := by
  decide

/-- C2 amended: after a connection error the server schedules nothing: the
status becomes OFFLINE, a CONNECTION entry demanding manual reconnection is
logged, and the handler arms no timer and changes no other flag; recovery
requires a manual connect. -/
theorem error_goes_offline_no_reconnect (s : ServerState) :
    (onError s).liveStatus = LiveStatus.OFFLINE
    ∧ (onError s).healthTimer = s.healthTimer
    ∧ (onError s).combo = s.combo
    ∧ (onError s).broadcastTimerAt = s.broadcastTimerAt
    ∧ (onError s).errorLog.head? =
        some ⟨"CONNECTION", "Connection error - Manual reconnection required"⟩
    ∧ (onError s).isManualDisconnect = s.isManualDisconnect := by
  refine ⟨rfl, ?_, ?_, ?_, ?_, ?_⟩
  · simpa [onError, broadcast] using (logError_frame _ _ s).2.1
  · simpa [onError, broadcast] using (logError_frame _ _ s).2.2.1
  · simpa [onError, broadcast] using (logError_frame _ _ s).2.2.2.1
  · simpa [onError, broadcast] using logError_head _ _ s
  · simpa [onError, broadcast] using (logError_frame _ _ s).2.2.2.2.2

/-- C6 counterexample: a manual disconnect from the concrete ONLINE state
(armed health interval) moves to DISCONNECTED but leaves the health-monitor
interval armed, contradicting the claim that every transition out of Online
stops it. -/
theorem manual_disconnect_keeps_health_interval_counterexample :
    sampleOnline.liveStatus = LiveStatus.ONLINE
    ∧ sampleOnline.healthTimer = true
    ∧ (disconnectTikTok none sampleOnline).liveStatus = LiveStatus.DISCONNECTED
    ∧ (disconnectTikTok none sampleOnline).healthTimer = true := by
  decide

/-- C6 amended: every transition out of Online cancels all outstanding combo
timers and empties the tracker; the feed-disconnect and stream-end handlers
additionally stop the health-monitor interval, while a manual disconnect
(and hence also the forced health disconnect, which calls it) leaves the
interval running — its later ticks are skipped because the status is no
longer ONLINE.  No reconnect timer exists anywhere in the module. -/
theorem transitions_out_of_online_cancel_combo_timers (dErr : Option String) (s : ServerState) :
    ((disconnectTikTok dErr s).combo.armed = []
      ∧ (disconnectTikTok dErr s).combo.combos = []
      ∧ (disconnectTikTok dErr s).liveStatus = LiveStatus.DISCONNECTED
      ∧ (disconnectTikTok dErr s).healthTimer = s.healthTimer)
    ∧ ((onDisconnected s).combo.armed = []
      ∧ (onDisconnected s).combo.combos = []
      ∧ (onDisconnected s).healthTimer = false
      ∧ (onDisconnected s).liveStatus = LiveStatus.OFFLINE)
    ∧ ((onStreamEnd s).combo.armed = []
      ∧ (onStreamEnd s).combo.combos = []
      ∧ (onStreamEnd s).healthTimer = false
      ∧ (onStreamEnd s).liveStatus = LiveStatus.OFFLINE) := by
  refine ⟨?_, ?_, ?_⟩
  · cases dErr <;>
      cases h : s.tiktokConn <;>
        simp [disconnectTikTok, clearComboTimers, broadcast, logError, h]
  · simp [onDisconnected, clearComboTimers, broadcast, stopHealthMonitoring, logError]
  · simp [onStreamEnd, clearComboTimers, broadcast, stopHealthMonitoring, logError]

theorem lookupA_setA_same {κ β : Type} [DecidableEq κ] (k : κ) (v : β) (l : List (κ × β)) :
    lookupA k (setA k v l) = some v := by
  induction l with
  | nil => simp [setA, lookupA]
  | cons p rest ih =>
    by_cases h : p.1 = k
    · simp [setA, h, lookupA]
    · simp [setA, h, lookupA, ih]

theorem lookupA_setA_other {κ β : Type} [DecidableEq κ] (k k' : κ) (v : β)
    (l : List (κ × β)) (h : k' ≠ k) :
    lookupA k' (setA k v l) = lookupA k' l := by
  have hkk : ¬(k = k') := fun he => h he.symm
  induction l with
  | nil => simp [setA, lookupA, hkk]
  | cons p rest ih =>
    by_cases hp : p.1 = k
    · simp [setA, lookupA, hp, hkk]
    · simp [setA, hp, lookupA, ih]

/-- C10: the counter endpoint 404s without touching any state when the group
id is unknown; on a known group it overwrites exactly the provided fields of
that group's counter (missing fields keep their current value, a missing
counter starts from zero), leaves every other group's counter alone, and
changes nothing else except marking the debounced broadcast. -/
theorem setCounter_not_found_or_partial_update (now : Nat) (groupId : String)
    (diamonds count : Option Int) (s : ServerState) :
    (lookupA groupId s.groups = none →
      setCounterApi now groupId diamonds count s = (s, some (404, "group not found")))
    ∧ (∀ g, lookupA groupId s.groups = some g →
        (setCounterApi now groupId diamonds count s).2 = none
        ∧ lookupA groupId (setCounterApi now groupId diamonds count s).1.counters =
            some ⟨count.getD ((lookupA groupId s.counters).getD ⟨0, 0⟩).count,
                  diamonds.getD ((lookupA groupId s.counters).getD ⟨0, 0⟩).diamonds⟩
        ∧ (∀ k, k ≠ groupId →
            lookupA k (setCounterApi now groupId diamonds count s).1.counters =
              lookupA k s.counters)
        ∧ (setCounterApi now groupId diamonds count s).1.groups = s.groups
        ∧ (setCounterApi now groupId diamonds count s).1.totalGifts = s.totalGifts
        ∧ (setCounterApi now groupId diamonds count s).1.totalDiamonds = s.totalDiamonds
        ∧ (setCounterApi now groupId diamonds count s).1.uniques = s.uniques
        ∧ (setCounterApi now groupId diamonds count s).1.viewers = s.viewers
        ∧ (setCounterApi now groupId diamonds count s).1.giftCatalog = s.giftCatalog
        ∧ (setCounterApi now groupId diamonds count s).1.cfg = s.cfg
        ∧ (setCounterApi now groupId diamonds count s).1.liveStatus = s.liveStatus
        ∧ (setCounterApi now groupId diamonds count s).1.errorLog = s.errorLog) := by
  constructor
  · intro h
    simp [setCounterApi, h]
  · intro g hg
    have hmerge :
        (match count with
          | some n =>
            { (match diamonds with
                | some d => { ((lookupA groupId s.counters).getD ⟨0, 0⟩) with diamonds := d }
                | none => (lookupA groupId s.counters).getD ⟨0, 0⟩) with count := n }
          | none =>
            match diamonds with
            | some d => { ((lookupA groupId s.counters).getD ⟨0, 0⟩) with diamonds := d }
            | none => (lookupA groupId s.counters).getD ⟨0, 0⟩) =
        (⟨count.getD ((lookupA groupId s.counters).getD ⟨0, 0⟩).count,
          diamonds.getD ((lookupA groupId s.counters).getD ⟨0, 0⟩).diamonds⟩ : Counter) := by
      cases count <;> cases diamonds <;> rfl
    refine ⟨?_, ?_, ?_, ?_, ?_, ?_, ?_, ?_, ?_, ?_, ?_, ?_⟩
    · simp [setCounterApi, hg, debouncedBroadcast]
    · simp [setCounterApi, hg, debouncedBroadcast, hmerge, lookupA_setA_same]
    · intro k hk
      simp only [setCounterApi, hg, debouncedBroadcast]
      exact lookupA_setA_other groupId k _ s.counters hk
    all_goals simp [setCounterApi, hg, debouncedBroadcast]

/-- Witness for setCounter_not_found_or_partial_update: unknown group 404s
with untouched state; on the known group only the provided diamonds field
is overwritten. -/
theorem setCounter_not_found_or_partial_update_witness :
    (lookupA "zz" sampleOnline.groups = none
      ∧ setCounterApi 5 "zz" (some 7) none sampleOnline =
          (sampleOnline, some (404, "group not found")))
    ∧ (lookupA "g1" sampleOnline.groups = some ⟨"Roses", [5655]⟩
      ∧ (setCounterApi 5 "g1" (some 7) none sampleOnline).2 = none
      ∧ lookupA "g1" (setCounterApi 5 "g1" (some 7) none sampleOnline).1.counters =
          some ⟨0, 7⟩) :=
  ⟨⟨rfl, (setCounter_not_found_or_partial_update 5 "zz" (some 7) none sampleOnline).1 rfl⟩,
    rfl,
    ((setCounter_not_found_or_partial_update 5 "g1" (some 7) none sampleOnline).2
      ⟨"Roses", [5655]⟩ rfl).1,
    ((setCounter_not_found_or_partial_update 5 "g1" (some 7) none sampleOnline).2
      ⟨"Roses", [5655]⟩ rfl).2.1⟩

/-- updateUptime only recomputes health.uptime. -/
theorem updateUptime_frame (now : Nat) (s : ServerState) :
    (updateUptime now s).liveStatus = s.liveStatus
    ∧ (updateUptime now s).healthTimer = s.healthTimer
    ∧ (updateUptime now s).errorLog = s.errorLog
    ∧ (updateUptime now s).combo = s.combo
    ∧ (updateUptime now s).health.consecutiveFailures = s.health.consecutiveFailures
    ∧ (updateUptime now s).health.lastActivity = s.health.lastActivity
    ∧ (updateUptime now s).health.isHealthy = s.health.isHealthy := by
  unfold updateUptime
  split <;> simp

/-- disconnectTikTok always clears the combo tracker and its timers, moves to
DISCONNECTED and keeps the health interval exactly as it was. -/
theorem disconnectTikTok_basic (dErr : Option String) (s : ServerState) :
    (disconnectTikTok dErr s).liveStatus = LiveStatus.DISCONNECTED
    ∧ (disconnectTikTok dErr s).combo.armed = []
    ∧ (disconnectTikTok dErr s).combo.combos = []
    ∧ (disconnectTikTok dErr s).healthTimer = s.healthTimer := by
  cases dErr <;> cases h : s.tiktokConn <;>
    simp [disconnectTikTok, clearComboTimers, broadcast, logError, h]

/-- disconnectTikTok with an error-free teardown logs nothing. -/
theorem disconnectTikTok_errorLog_none (s : ServerState) :
    (disconnectTikTok none s).errorLog = s.errorLog := by
  cases h : s.tiktokConn <;>
    simp [disconnectTikTok, clearComboTimers, broadcast, h]

/-- A stale health tick below the failure threshold: the failure counter goes
up by one, the connection is marked unhealthy, and nothing is disconnected
or logged. -/
theorem healthCheck_stale_below (now : Nat) (dErr : Option String) (s : ServerState) (a : Nat)
    (hT : s.healthTimer = true) (hOn : s.liveStatus = LiveStatus.ONLINE)
    (hA : s.health.lastActivity = some a)
    (hst : HEALTH_CHECK_TIMEOUT * 2 < now - a)
    (hlt : s.health.consecutiveFailures + 1 < 3) :
    (healthCheck now dErr s).health.consecutiveFailures = s.health.consecutiveFailures + 1
    ∧ (healthCheck now dErr s).liveStatus = LiveStatus.ONLINE
    ∧ (healthCheck now dErr s).healthTimer = true
    ∧ (healthCheck now dErr s).errorLog = s.errorLog
    ∧ (healthCheck now dErr s).health.lastActivity = some a
    ∧ (healthCheck now dErr s).health.isHealthy = false := by
  have hne : now - a ≠ 0 := by
    intro h0
    rw [h0] at hst
    exact absurd hst (Nat.not_lt_zero _)
  have hnotge : ¬(3 ≤ s.health.consecutiveFailures + 1) := by omega
  unfold healthCheck
  rw [hT, hOn]
  simp only [hA, updateUptime]
  simp [hne, hst, hnotge]
  split <;> simp [hOn]

/-- The combined effect of the forced health disconnect path: HEALTH entry
logged, forced disconnect performed (tracker cleared, DISCONNECTED), health
interval untouched. -/
theorem healthDisconnect_effects (now : Nat) (msg : String) (s : ServerState) :
    (updateUptime now (disconnectTikTok none (logError "HEALTH" msg s))).liveStatus =
        LiveStatus.DISCONNECTED
    ∧ (updateUptime now (disconnectTikTok none (logError "HEALTH" msg s))).errorLog.head? =
        some ⟨"HEALTH", msg⟩
    ∧ (updateUptime now (disconnectTikTok none (logError "HEALTH" msg s))).combo.armed = []
    ∧ (updateUptime now (disconnectTikTok none (logError "HEALTH" msg s))).combo.combos = []
    ∧ (updateUptime now (disconnectTikTok none (logError "HEALTH" msg s))).healthTimer =
        s.healthTimer := by
  have hu := updateUptime_frame now (disconnectTikTok none (logError "HEALTH" msg s))
  have hd := disconnectTikTok_basic none (logError "HEALTH" msg s)
  have hlog := disconnectTikTok_errorLog_none (logError "HEALTH" msg s)
  have hhead := logError_head "HEALTH" msg s
  have hlf := (logError_frame "HEALTH" msg s).2.1
  refine ⟨?_, ?_, ?_, ?_, ?_⟩
  · rw [hu.1, hd.1]
  · rw [hu.2.2.1, hlog, hhead]
  · rw [congrArg ComboState.armed hu.2.2.2.1, hd.2.1]
  · rw [congrArg ComboState.combos hu.2.2.2.1, hd.2.2.1]
  · rw [hu.2.1, hd.2.2.2, hlf]

/-- A stale health tick that reaches the threshold of 3 consecutive failures:
the HEALTH error is logged and a forced disconnect runs (error-free
teardown), clearing the combo tracker; the interval itself stays armed. -/
theorem healthCheck_stale_threshold (now : Nat) (s : ServerState) (a : Nat)
    (hT : s.healthTimer = true) (hOn : s.liveStatus = LiveStatus.ONLINE)
    (hA : s.health.lastActivity = some a)
    (hst : HEALTH_CHECK_TIMEOUT * 2 < now - a)
    (hge : 3 ≤ s.health.consecutiveFailures + 1) :
    (healthCheck now none s).liveStatus = LiveStatus.DISCONNECTED
    ∧ (healthCheck now none s).errorLog.head? =
        some ⟨"HEALTH", "Connection health check failed - Manual reconnection required"⟩
    ∧ (healthCheck now none s).combo.armed = []
    ∧ (healthCheck now none s).combo.combos = []
    ∧ (healthCheck now none s).healthTimer = s.healthTimer := by
  have hne : now - a ≠ 0 := by
    intro h0
    rw [h0] at hst
    exact absurd hst (Nat.not_lt_zero _)
  unfold healthCheck
  rw [hT, hOn]
  simp only [hA]
  simp only [hne, hst, hge, ne_eq, not_true_eq_false, if_false, and_true, not_false_eq_true,
    and_self, if_true, reduceIte]
  exact healthDisconnect_effects now _ _

/-- C7: while Online with an armed monitor, three consecutive health ticks
each finding the time since lastActivity above twice HEALTH_CHECK_TIMEOUT
leave the first two ticks harmless (failure counter 1 then 2, still ONLINE,
nothing logged) and on exactly the third tick force a disconnect and append
a HEALTH entry; and recordActivity — run by every inbound feed event —
resets consecutiveFailures to 0 and marks the connection healthy. -/
theorem health_three_stale_checks_force_disconnect
    (s : ServerState) (a t1 t2 t3 : Nat)
    (hT : s.healthTimer = true) (hOn : s.liveStatus = LiveStatus.ONLINE)
    (hF : s.health.consecutiveFailures = 0) (hA : s.health.lastActivity = some a)
    (h1 : HEALTH_CHECK_TIMEOUT * 2 < t1 - a)
    (h2 : HEALTH_CHECK_TIMEOUT * 2 < t2 - a)
    (h3 : HEALTH_CHECK_TIMEOUT * 2 < t3 - a) :
    ((healthCheck t1 none s).health.consecutiveFailures = 1
      ∧ (healthCheck t1 none s).liveStatus = LiveStatus.ONLINE
      ∧ (healthCheck t1 none s).errorLog = s.errorLog)
    ∧ ((healthCheck t2 none (healthCheck t1 none s)).health.consecutiveFailures = 2
      ∧ (healthCheck t2 none (healthCheck t1 none s)).liveStatus = LiveStatus.ONLINE
      ∧ (healthCheck t2 none (healthCheck t1 none s)).errorLog = s.errorLog)
    ∧ ((healthCheck t3 none (healthCheck t2 none (healthCheck t1 none s))).liveStatus =
          LiveStatus.DISCONNECTED
      ∧ (healthCheck t3 none (healthCheck t2 none (healthCheck t1 none s))).errorLog.head? =
          some ⟨"HEALTH", "Connection health check failed - Manual reconnection required"⟩
      ∧ (healthCheck t3 none (healthCheck t2 none (healthCheck t1 none s))).combo.armed = [])
    ∧ (∀ now, (recordActivity now (healthCheck t1 none s)).health.consecutiveFailures = 0
        ∧ (recordActivity now (healthCheck t1 none s)).health.isHealthy = true) := by
  have c1 := healthCheck_stale_below t1 none s a hT hOn hA h1 (by omega)
  have c2 := healthCheck_stale_below t2 none (healthCheck t1 none s) a
    c1.2.2.1 c1.2.1 c1.2.2.2.2.1 h2 (by simp only [c1.1, hF]; omega)
  have c3 := healthCheck_stale_threshold t3 (healthCheck t2 none (healthCheck t1 none s)) a
    c2.2.2.1 c2.2.1 c2.2.2.2.2.1 h3 (by simp only [c2.1, c1.1, hF]; omega)
  refine ⟨⟨by simp only [c1.1, hF], c1.2.1, c1.2.2.2.1⟩,
    ⟨by simp only [c2.1, c1.1, hF], c2.2.1, by rw [c2.2.2.2.1, c1.2.2.2.1]⟩,
    ⟨c3.1, c3.2.1, c3.2.2.1⟩,
    ?_⟩
  intro now
  exact ⟨rfl, rfl⟩

/-- Witness for health_three_stale_checks_force_disconnect at the concrete
ONLINE state with lastActivity at t = 1000 and checks at 30s, 60s, 90s. -/
theorem health_three_stale_checks_force_disconnect_witness :
    (sampleOnline.healthTimer = true
      ∧ sampleOnline.liveStatus = LiveStatus.ONLINE
      ∧ sampleOnline.health.consecutiveFailures = 0
      ∧ sampleOnline.health.lastActivity = some 1000
      ∧ HEALTH_CHECK_TIMEOUT * 2 < 30000 - 1000
      ∧ HEALTH_CHECK_TIMEOUT * 2 < 60000 - 1000
      ∧ HEALTH_CHECK_TIMEOUT * 2 < 90000 - 1000)
    ∧ (healthCheck 30000 none sampleOnline).health.consecutiveFailures = 1
    ∧ (healthCheck 90000 none (healthCheck 60000 none
        (healthCheck 30000 none sampleOnline))).liveStatus = LiveStatus.DISCONNECTED
    ∧ (healthCheck 90000 none (healthCheck 60000 none
        (healthCheck 30000 none sampleOnline))).errorLog.head? =
        some ⟨"HEALTH", "Connection health check failed - Manual reconnection required"⟩ :=
  ⟨by decide,
    (health_three_stale_checks_force_disconnect sampleOnline 1000 30000 60000 90000
      rfl rfl rfl rfl (by decide) (by decide) (by decide)).1.1,
    (health_three_stale_checks_force_disconnect sampleOnline 1000 30000 60000 90000
      rfl rfl rfl rfl (by decide) (by decide) (by decide)).2.2.1.1,
    (health_three_stale_checks_force_disconnect sampleOnline 1000 30000 60000 90000
      rfl rfl rfl rfl (by decide) (by decide) (by decide)).2.2.1.2.1⟩

/-- The member feed-event handler (index.js 752-760) for an event carrying a
uniqueId: record activity, add to the unique-sender set, debounced
broadcast. -/
def onMember (now : Nat) (uid : String) (s : ServerState) : ServerState :=
  let s := recordActivity now s
  let s := { s with uniques := if uid ∈ s.uniques then s.uniques else s.uniques ++ [uid] }
  debouncedBroadcast now s

/-- The roomUser feed-event handler (index.js 763-771) carrying a viewer
count: record activity, store the count, debounced broadcast. -/
def onRoomUser (now : Nat) (n : Nat) (s : ServerState) : ServerState :=
  let s := recordActivity now s
  let s := { s with viewers := n }
  debouncedBroadcast now s

/-- An aggregator mutation that goes through the debounced broadcast path. -/
inductive FeedMut where
  | member (uid : String)
  | roomUser (n : Nat)
  deriving DecidableEq

/-- Apply one timed mutation. -/
def applyMut (m : FeedMut) (now : Nat) (s : ServerState) : ServerState :=
  match m with
  | FeedMut.member uid => onMember now uid s
  | FeedMut.roomUser n => onRoomUser now n s

/-- Run a list of timed mutations in order. -/
def runMuts (s : ServerState) : List (FeedMut × Nat) → ServerState
  | [] => s
  | (m, t) :: rest => runMuts (applyMut m t s) rest

/-- C3 counterexample: a second mutation arriving at t = 50, inside the
window armed at t = 0, DOES reset the debounce timer (deadline moves from
100 to 150), and firing at t = 100 — one window after the first dirty mark —
emits nothing, so the latency is not bounded by one window from the first
dirty mark. -/
theorem debounce_timer_is_reset_counterexample :
    (onRoomUser 0 3 sampleOnline).broadcastTimerAt = some 100
    ∧ (onRoomUser 50 5 (onRoomUser 0 3 sampleOnline)).broadcastTimerAt = some 150
    ∧ fireBroadcastTimer 100 (onRoomUser 50 5 (onRoomUser 0 3 sampleOnline)) =
        onRoomUser 50 5 (onRoomUser 0 3 sampleOnline) := by
  decide

/-- Each debounced mutation leaves the outbox alone, marks dirty, and re-arms
the timer for its own time plus the window. -/
theorem applyMut_effects (m : FeedMut) (t : Nat) (s : ServerState) :
    (applyMut m t s).updates = s.updates
    ∧ (applyMut m t s).pendingBroadcast = true
    ∧ (applyMut m t s).broadcastTimerAt = some (t + BROADCAST_DEBOUNCE_MS) := by
  cases m <;> simp [applyMut, onMember, onRoomUser, recordActivity, debouncedBroadcast]

/-- After a nonempty mutation run the outbox is untouched, the dirty flag is
set and the timer deadline is the last mutation time plus the window. -/
theorem runMuts_armed (ms : List (FeedMut × Nat)) :
    ∀ (m0 : FeedMut) (t0 : Nat) (s : ServerState),
      (runMuts s ((m0, t0) :: ms)).updates = s.updates
      ∧ (runMuts s ((m0, t0) :: ms)).pendingBroadcast = true
      ∧ (runMuts s ((m0, t0) :: ms)).broadcastTimerAt =
          some ((lastD ms (m0, t0)).2 + BROADCAST_DEBOUNCE_MS) := by
  induction ms with
  | nil =>
    intro m0 t0 s
    simpa [runMuts, lastD] using applyMut_effects m0 t0 s
  | cons p rest ih =>
    intro m0 t0 s
    have hstep : runMuts s ((m0, t0) :: p :: rest) =
        runMuts (applyMut m0 t0 s) (p :: rest) := rfl
    have := ih p.1 p.2 (applyMut m0 t0 s)
    simp only [hstep]
    refine ⟨?_, ?_, ?_⟩
    · rw [this.1, (applyMut_effects m0 t0 s).1]
    · exact this.2.1
    · rw [this.2.2]
      simp [lastD]

/-- C3 corrected: for mutations each arriving before the currently armed
deadline (so no intermediate window can fire), exactly one snapshot is
emitted, when the re-armed timer fires one window after the LAST mutation;
it reflects the state after the last mutation, and a later tick of the
(now disarmed) timer emits nothing.  The timer IS reset by every mutation,
so the latency bound is one window from the last — not the first — dirty
mark. -/
theorem debounced_mutations_one_snapshot
    (s0 : ServerState) (m0 : FeedMut) (t0 : Nat) (ms : List (FeedMut × Nat))
    (_hchain : List.Chain (fun p q => p.2 ≤ q.2 ∧ q.2 < p.2 + BROADCAST_DEBOUNCE_MS) (m0, t0) ms) :
    (fireBroadcastTimer ((lastD ms (m0, t0)).2 + BROADCAST_DEBOUNCE_MS)
        (runMuts s0 ((m0, t0) :: ms))).updates =
      buildPayload (runMuts s0 ((m0, t0) :: ms)) :: s0.updates
    ∧ (fireBroadcastTimer ((lastD ms (m0, t0)).2 + BROADCAST_DEBOUNCE_MS)
        (runMuts s0 ((m0, t0) :: ms))).pendingBroadcast = false
    ∧ (fireBroadcastTimer ((lastD ms (m0, t0)).2 + BROADCAST_DEBOUNCE_MS)
        (runMuts s0 ((m0, t0) :: ms))).broadcastTimerAt = none
    ∧ (∀ now, fireBroadcastTimer now
        (fireBroadcastTimer ((lastD ms (m0, t0)).2 + BROADCAST_DEBOUNCE_MS)
          (runMuts s0 ((m0, t0) :: ms))) =
        fireBroadcastTimer ((lastD ms (m0, t0)).2 + BROADCAST_DEBOUNCE_MS)
          (runMuts s0 ((m0, t0) :: ms))) := by
  have h := runMuts_armed ms m0 t0 s0
  have hfire : fireBroadcastTimer ((lastD ms (m0, t0)).2 + BROADCAST_DEBOUNCE_MS)
      (runMuts s0 ((m0, t0) :: ms)) =
      { broadcast (runMuts s0 ((m0, t0) :: ms)) with
        pendingBroadcast := false, broadcastTimerAt := none } := by
    unfold fireBroadcastTimer
    rw [h.2.2]
    simp [h.2.1]
  refine ⟨?_, ?_, ?_, ?_⟩
  · rw [hfire]
    simp [broadcast, h.1]
  · rw [hfire]
  · rw [hfire]
  · intro now
    rw [hfire]
    rfl

/-- Witness for debounced_mutations_one_snapshot: two viewer-count mutations
at t = 0 and t = 50 produce exactly one snapshot when the timer fires at
t = 150, reflecting the state after the second mutation. -/
theorem debounced_mutations_one_snapshot_witness :
    List.Chain (fun p q => p.2 ≤ q.2 ∧ q.2 < p.2 + BROADCAST_DEBOUNCE_MS)
      (FeedMut.roomUser 3, 0) [(FeedMut.roomUser 5, 50)]
    ∧ (fireBroadcastTimer
        ((lastD [(FeedMut.roomUser 5, 50)] (FeedMut.roomUser 3, 0)).2 + BROADCAST_DEBOUNCE_MS)
        (runMuts sampleOnline ((FeedMut.roomUser 3, 0) :: [(FeedMut.roomUser 5, 50)]))).updates =
      buildPayload (runMuts sampleOnline
        ((FeedMut.roomUser 3, 0) :: [(FeedMut.roomUser 5, 50)])) :: sampleOnline.updates
    ∧ (fireBroadcastTimer
        ((lastD [(FeedMut.roomUser 5, 50)] (FeedMut.roomUser 3, 0)).2 + BROADCAST_DEBOUNCE_MS)
        (runMuts sampleOnline
          ((FeedMut.roomUser 3, 0) :: [(FeedMut.roomUser 5, 50)]))).pendingBroadcast = false :=
  ⟨List.Chain.cons (by decide) List.Chain.nil,
    (debounced_mutations_one_snapshot sampleOnline (FeedMut.roomUser 3) 0
      [(FeedMut.roomUser 5, 50)] (List.Chain.cons (by decide) List.Chain.nil)).1,
    (debounced_mutations_one_snapshot sampleOnline (FeedMut.roomUser 3) 0
      [(FeedMut.roomUser 5, 50)] (List.Chain.cons (by decide) List.Chain.nil)).2.1⟩

/-! ## Backend sync batching (index.js lines 186-257)

The payload type is abstract (the code forwards cfg / groups objects
verbatim); writes issued to the remote store are returned as a list of
(type, payload) pairs.  Write failures only hit the debug log and nothing
is re-enqueued, so the flush result does not depend on write outcomes. -/

/-- The type tag of a queued sync item. -/
inductive SyncType where
  | config
  | groups
  deriving DecidableEq

/-- One entry of syncQueue. -/
structure SyncItem (α : Type) where
  type : SyncType
  data : α
  timestamp : Nat
  deriving DecidableEq

/-- The sync batcher state: the queue and the armed flush timer. -/
structure SyncQueueState (α : Type) where
  queue : List (SyncItem α)
  timerAt : Option Nat
  deriving DecidableEq

/-- flushSyncQueue (index.js 218-257): snapshot and clear the queue, clear
the timer, group by type and issue one write per nonempty type carrying the
latest queued payload of that type. -/
def flushSyncQueue {α : Type} (s : SyncQueueState α) : SyncQueueState α × List (SyncType × α) :=
  if s.queue.isEmpty then (s, [])
  else
    let itemsToSync := s.queue
    let cs := itemsToSync.filter (fun i => decide (i.type = SyncType.config))
    let gs := itemsToSync.filter (fun i => decide (i.type = SyncType.groups))
    let w1 := match cs.getLast? with
      | some latest => [(SyncType.config, latest.data)]
      | none => []
    let w2 := match gs.getLast? with
      | some latest => [(SyncType.groups, latest.data)]
      | none => []
    (⟨[], none⟩, w1 ++ w2)

/-- queueBackendSync (index.js 192-216): push the item; flush immediately
once the queue size reaches the maximum, otherwise (re)arm the batch
timer. -/
def queueBackendSync {α : Type} (now : Nat) (ty : SyncType) (d : α) (s : SyncQueueState α) :
    SyncQueueState α × List (SyncType × α) :=
  let q := s.queue ++ [⟨ty, d, now⟩]
  if MAX_SYNC_QUEUE_SIZE ≤ q.length then flushSyncQueue ⟨q, s.timerAt⟩
  else (⟨q, some (now + SYNC_BATCH_DELAY)⟩, [])

/-- The last element satisfying a predicate, two ways. -/
theorem filter_getLast?_eq_reverse_find? {α : Type} (p : α → Bool) (l : List α) :
    (l.filter p).getLast? = l.reverse.find? p := by
  induction l using List.reverseRecOn with
  | nil => rfl
  | append_singleton l a ih =>
    cases hpa : p a <;>
      simp [List.filter_append, List.reverse_append, List.find?, hpa, ih,
        List.getLast?_concat, List.filter]

/-- The writes a flush issues, per type: exactly the payload of the last
queued item of that type (none when the type is absent). -/
theorem flushSyncQueue_writes {α : Type} (s : SyncQueueState α) (ty : SyncType) :
    ((flushSyncQueue s).2.filter (fun w => decide (w.1 = ty))).map Prod.snd =
      ((s.queue.reverse.find? (fun j => decide (j.type = ty))).map SyncItem.data).toList := by
  rw [← filter_getLast?_eq_reverse_find?]
  cases hq : s.queue.isEmpty with
  | true =>
    have hnil : s.queue = [] := by simpa using hq
    simp [flushSyncQueue, hq, hnil]
  | false =>
    simp only [flushSyncQueue, hq, Bool.false_eq_true, if_false]
    cases ty <;>
      cases hc : (s.queue.filter (fun i => decide (i.type = SyncType.config))).getLast? <;>
        cases hg : (s.queue.filter (fun i => decide (i.type = SyncType.groups))).getLast? <;>
          simp [hc, hg]

/-- A flush leaves an empty queue; when it had anything to do it also clears
the timer. -/
theorem flushSyncQueue_state {α : Type} (s : SyncQueueState α) :
    (flushSyncQueue s).1.queue = []
    ∧ (s.queue ≠ [] → (flushSyncQueue s).1.timerAt = none) := by
  cases hq : s.queue.isEmpty with
  | true =>
    have hnil : s.queue = [] := by simpa using hq
    simp [flushSyncQueue, hq, hnil]
  | false =>
    simp [flushSyncQueue, hq]

/-- C4: a flush issues at most one write per type, the write for a type
carries exactly the most recent queued payload of that type (all older ones
are discarded), the queue ends empty and the timer cleared with nothing
kept for retry; and an enqueue that brings the queue length to the maximum
of 10 flushes immediately (issuing at least one write), while below the
maximum it only re-arms the 2000 ms batch timer. -/
theorem sync_flush_latest_wins_and_max_triggers {α : Type} (s : SyncQueueState α) :
    (∀ ty : SyncType,
      ((flushSyncQueue s).2.filter (fun w => decide (w.1 = ty))).length ≤ 1)
    ∧ (∀ ty : SyncType,
        ((flushSyncQueue s).2.filter (fun w => decide (w.1 = ty))).map Prod.snd =
          ((s.queue.reverse.find? (fun j => decide (j.type = ty))).map SyncItem.data).toList)
    ∧ (flushSyncQueue s).1.queue = []
    ∧ (s.queue ≠ [] → (flushSyncQueue s).1.timerAt = none)
    ∧ (∀ (now : Nat) (ty : SyncType) (d : α),
        MAX_SYNC_QUEUE_SIZE ≤ s.queue.length + 1 →
          (queueBackendSync now ty d s).1.queue = []
          ∧ (queueBackendSync now ty d s).1.timerAt = none
          ∧ (queueBackendSync now ty d s).2 ≠ [])
    ∧ (∀ (now : Nat) (ty : SyncType) (d : α),
        s.queue.length + 1 < MAX_SYNC_QUEUE_SIZE →
          (queueBackendSync now ty d s).2 = []
          ∧ (queueBackendSync now ty d s).1.queue = s.queue ++ [⟨ty, d, now⟩]
          ∧ (queueBackendSync now ty d s).1.timerAt = some (now + SYNC_BATCH_DELAY)) := by
  refine ⟨?_, fun ty => flushSyncQueue_writes s ty, (flushSyncQueue_state s).1,
    (flushSyncQueue_state s).2, ?_, ?_⟩
  · intro ty
    have hlen := congrArg List.length (flushSyncQueue_writes s ty)
    rw [List.length_map] at hlen
    rw [hlen]
    cases s.queue.reverse.find? (fun j => decide (j.type = ty)) <;> simp
  · intro now ty d h
    have hcase : MAX_SYNC_QUEUE_SIZE ≤ (s.queue ++ [(⟨ty, d, now⟩ : SyncItem α)]).length := by
      simpa using h
    simp only [queueBackendSync, hcase, if_true]
    refine ⟨(flushSyncQueue_state _).1, (flushSyncQueue_state _).2 (by simp), ?_⟩
    have hw := flushSyncQueue_writes ⟨s.queue ++ [⟨ty, d, now⟩], s.timerAt⟩ ty
    simp only [List.reverse_append, List.reverse_cons, List.reverse_nil, List.nil_append,
      List.cons_append, List.find?] at hw
    simp at hw
    intro hnil
    rw [hnil] at hw
    simp at hw
  · intro now ty d h
    have hcase : ¬(MAX_SYNC_QUEUE_SIZE ≤ s.queue.length + 1) := by omega
    simp [queueBackendSync, hcase]

/-- A concrete three-item queue: config payload 1, groups payload 2, config
payload 3 (in that order), with the batch timer armed. -/
def syncSample : SyncQueueState Nat :=
  ⟨[⟨SyncType.config, 1, 0⟩, ⟨SyncType.groups, 2, 10⟩, ⟨SyncType.config, 3, 20⟩], some 2000⟩

/-- A concrete nine-item queue about to reach the maximum. -/
def syncNine : SyncQueueState Nat :=
  ⟨(List.range 9).map (fun i => ⟨SyncType.config, i, i⟩), none⟩

/-- Witness for sync_flush_latest_wins_and_max_triggers: flushing the
three-item queue writes only the latest config payload (3); the tenth
enqueue flushes immediately. -/
theorem sync_flush_latest_wins_and_max_triggers_witness :
    ((flushSyncQueue syncSample).2.filter
        (fun w => decide (w.1 = SyncType.config))).map Prod.snd = [3]
    ∧ (flushSyncQueue syncSample).1.queue = []
    ∧ (syncSample.queue ≠ [] ∧ (flushSyncQueue syncSample).1.timerAt = none)
    ∧ (MAX_SYNC_QUEUE_SIZE ≤ syncNine.queue.length + 1
        ∧ (queueBackendSync 100 SyncType.groups 7 syncNine).1.queue = []
        ∧ (queueBackendSync 100 SyncType.groups 7 syncNine).2 ≠ []) :=
  ⟨((sync_flush_latest_wins_and_max_triggers syncSample).2.1 SyncType.config).trans (by decide),
    (sync_flush_latest_wins_and_max_triggers syncSample).2.2.1,
    ⟨by decide, (sync_flush_latest_wins_and_max_triggers syncSample).2.2.2.1 (by decide)⟩,
    ⟨by decide,
      ((sync_flush_latest_wins_and_max_triggers syncNine).2.2.2.2.1 100 SyncType.groups 7
        (by decide)).1,
      ((sync_flush_latest_wins_and_max_triggers syncNine).2.2.2.2.1 100 SyncType.groups 7
        (by decide)).2.2⟩⟩
